import Mathlib

/-
Verification of the chat-turn orchestration and multilingual prompt/response
pipeline of the jennifer_v1 repository.

The TypeScript sources are shallowly embedded: every network effect is
modelled by an explicit oracle function carried in a `ServerEnv` record, and
every function that performs fetches returns, next to its result, the ordered
trace (`CallLog`) of the upstream calls it made.  JavaScript string and
truthiness semantics that the sources rely on (`||` defaulting, `.trim()`,
`.toLowerCase()`, `.slice(-5)`, optional chaining) are embedded as small `js*`
helper functions (ASCII case folding and ASCII whitespace, which is all the
embedded call sites exercise).
-/

/-! ## JavaScript semantics helpers -/

/-- JS `String.prototype.toLowerCase` restricted to ASCII: the per-character
case folding used on the language tags handled by this code base. -/
def jsToLowerCase (s : String) : String := String.mk (s.data.map Char.toLower)

/-- An ASCII whitespace character, as JS `trim` treats the whitespace the
embedded call sites use. -/
def jsWhitespace (c : Char) : Bool := c == ' ' || c == '\t' || c == '\n' || c == '\r'

/-- JS `String.prototype.trim`: drop whitespace from both ends. -/
def jsTrim (s : String) : String :=
  String.mk (((s.data.dropWhile jsWhitespace).reverse.dropWhile jsWhitespace).reverse)

/-- JS `x || d` for a string `x`: the empty string is falsy. -/
def jsOrString (x d : String) : String := if x = "" then d else x

/-- JS `x || d` where `x` may be `undefined` (modelled as `none`). -/
def jsOrOptString (x : Option String) (d : String) : String :=
  match x with
  | some s => jsOrString s d
  | none => d

/-- JS truthiness of a possibly-missing boolean field. -/
def jsTruthyBool (x : Option Bool) : Bool :=
  match x with
  | some b => b
  | none => false

/-- JS `Array.prototype.slice(-n)`: the suffix of the last `n` elements
(the whole array when it is shorter). -/
def jsSliceLast {α : Type} (l : List α) (n : Nat) : List α := l.drop (l.length - n)

/-- Whether `sub` occurs contiguously inside `s`. -/
def stringContains (s sub : String) : Bool :=
  (List.range (s.data.length + 1)).any fun i => sub.data.isPrefixOf (s.data.drop i)

-- Decidable equality for the `Except` results of the embedded fallible functions.
deriving instance DecidableEq for Except

/-! ## Data model (shared TypeScript interfaces) -/

/-- interface ChatMessage (logic.ts lines 3-10 / server.ts lines 10-17). -/
structure ChatMessage where
  role : String
  content : String
  timestamp : String
  messageId : Option String := none
  audioData : Option String := none
  detectedLanguage : Option String := none
deriving Repr, DecidableEq

/-- interface AssessmentAnswer (logic.ts lines 12-16). -/
structure AssessmentAnswer where
  questionId : Nat
  question : String
  answer : String
deriving Repr, DecidableEq

/-- The JSON body of POST /api/chat (interface GetChatResponseParams,
logic.ts lines 18-25).  Every field is optional here because the handlers
validate — or fail to validate — presence themselves; `none` models an absent
field of the request body. -/
structure ChatBody where
  FirstMessage : Option Bool := none
  assessment_question_answers : Option (List AssessmentAnswer) := none
  language : Option String := none
  Transcript : Option String := none
  ConversationHistory : Option (List ChatMessage) := none
  DetectedLanguage : Option String := none
deriving Repr, DecidableEq

/-- One entry of the `messages` array sent to the chat-completion provider. -/
structure OpenAIMessage where
  role : String
  content : String
deriving Repr, DecidableEq

/-- The JSON body POSTed to the chat-completion endpoint:
`{ model, messages, temperature?, top_p? }`. -/
structure OpenAIRequest where
  model : String
  messages : List OpenAIMessage
  temperature : Option ℚ := none
  top_p : Option ℚ := none
deriving Repr, DecidableEq

/-- The provider's answer to a chat-completion call, as far as the sources
read it: `resp.ok`, `resp.text()` (read on failure), and
`data.choices?.[0]?.message?.content` (`none` models any missing piece of
that optional chain). -/
structure OpenAIResponse where
  ok : Bool
  bodyText : String
  content : Option String
deriving Repr, DecidableEq

/-- The Hume TTS payload `{ utterances: [{ text, voice: { id, provider } }],
format: { type } }` built by server.ts generateTTS (lines 119-130), flattened
into its four leaves. -/
structure HumePayload where
  utteranceText : String
  voiceId : String
  voiceProvider : String
  formatType : String
deriving Repr, DecidableEq

/-- The Hume response as read by the source: `resp.ok`, `resp.text()` and
`json.generations?.[0]?.audio`. -/
structure HumeResponse where
  ok : Bool
  bodyText : String
  audio : Option String
deriving Repr, DecidableEq

/-- The ElevenLabs payload `{ text, voice_settings: { stability,
similarity_boost, speed } }`. -/
structure ElevenPayload where
  text : String
  stability : ℚ
  similarity_boost : ℚ
  speed : ℚ
deriving Repr, DecidableEq

/-- The ElevenLabs response as read by the source: `r.ok`, `r.text()` (read
on failure) and the audio bytes (already base64-encoded here, as the caller
immediately encodes them). -/
structure ElevenResponse where
  ok : Bool
  bodyText : String
  audioBytesB64 : String
deriving Repr, DecidableEq

/-- Process configuration and network oracles: the four credentials read from
the environment and one deterministic response function per upstream
provider.  `fetchEleven` also receives the `xi-api-key` header value. -/
structure ServerEnv where
  OPENAI_API_KEY : String
  HUME_API_KEY : String
  ELEVENLABS_API_KEY : String
  ELEVENLABS2_API_KEY : String
  fetchOpenAI : OpenAIRequest → OpenAIResponse
  fetchHume : HumePayload → HumeResponse
  fetchEleven : String → ElevenPayload → ElevenResponse

/-- One observable upstream interaction.  `openai`, `hume` and `eleven` are
fetches (an `eleven` entry with `fetched = false` records a `callEleven`
invocation that returned `undefined` because its credential was missing —
no network traffic happens for it); `ttsInvoke` records a route handing text
and a language tag to its generateTTS helper. -/
inductive CallLog where
  | openai (req : OpenAIRequest)
  | ttsInvoke (text : String) (language : String)
  | hume (payload : HumePayload)
  | eleven (key : String) (fetched : Bool)
deriving Repr, DecidableEq

/-- Whether a log entry is the Hume fetch. -/
def CallLog.isHume : CallLog → Bool
  | .hume _ => true
  | _ => false

/-- Whether a log entry is an ElevenLabs credential attempt. -/
def CallLog.isEleven : CallLog → Bool
  | .eleven _ _ => true
  | _ => false

/-- Whether a log entry stands for actual network traffic. -/
def CallLog.isFetch : CallLog → Bool
  | .openai _ => true
  | .ttsInvoke _ _ => false
  | .hume _ => true
  | .eleven _ fetched => fetched

/-- The chat-completion requests of a call trace, in order. -/
def openaiRequests (log : List CallLog) : List OpenAIRequest :=
  log.filterMap fun e =>
    match e with
    | .openai r => some r
    | _ => none

/-- The response JSON of a route: either the success payload
`{ audioData, text }` or an object with an `error` key. -/
inductive ChatRouteJson where
  | payload (audioData : String) (text : String)
  | error (message : String)
deriving Repr, DecidableEq

/-- One per-language bundle of the prompt catalog:
`{ roleIntro, style, instructionsIntro, importantNote }`. -/
structure PromptContent where
  roleIntro : String
  style : String
  instructionsIntro : String
  importantNote : String
deriving Repr, DecidableEq


/-! ## Prompt catalogs (static template tables of the sources) -/

/-- The english prompt bundle of logic.ts buildSystemPrompt (lines 164-311). -/
def logicPromptsEnglish : PromptContent :=
  { roleIntro := "You are Jennifer, a compassionate mental health support AI therapist designed to provide empathetic, non-judgmental support through active listening and evidence-based interventions. Your primary function is to:\n        - Validate emotions and explore feelings through reflective questioning\n        - Offer practical exercises ONLY when user needs would be best served by structured interventions\n        - Provide crisis support and professional resource recommendations\n        - Maintain therapeutic continuity through conversation history awareness\n        \n        When suggesting exercises:\n        - Choose between breathing, grounding, mindfulness, or cognitive techniques based on assessment data\n        - Combine methods only when it enhances effectiveness\n        - Complete full exercise sequences once initiated unless interrupted\n        \n        STRICT RULES:\n        - Always respond strictly in English language only.\n        - Do not use any special characters like '*', '#', '-' or any other that may cause TTS to pronounce gibberish.",
    style := "Communicate with warm, patient empathy. Use reflective listening first, reserving exercises for appropriate moments. When suggesting interventions: Explain rationale briefly, confirm user readiness, then provide complete step-by-step instructions. Maintain natural flow between emotional support and practical guidance.",
    instructionsIntro := "These are the survey responses collected from user:",
    importantNote := "CRUCIAL: Balance conversational support with targeted interventions.\n        1. Suggest exercises ONLY when:\n            - Explicitly requested by user\n            - Clear distress patterns emerge across multiple messages\n            - Assessment data indicates specific needs\n            - User seems receptive to structured help\n        2. Before starting any exercise:\n            - Briefly explain its purpose\n            - Confirm user's willingness to proceed\n        3. Once initiated:\n            - Complete full exercise sequence\n            - Provide clear transitions between steps\n            - Only pause if user requests to stop\n        4. For ongoing needs:\n            - Document exercise progress in history\n            - Follow up on effectiveness in future sessions\n        5. Always prioritize emotional validation before technical solutions" }

/-- The spanish prompt bundle of logic.ts buildSystemPrompt (lines 164-311). -/
def logicPromptsSpanish : PromptContent :=
  { roleIntro := "Eres Jennifer, una compasiva terapeuta de apoyo a la salud mental basada en inteligencia artificial, diseñada para brindar apoyo empático y sin juicios a través de la escucha activa y de intervenciones basadas en evidencia. Tu función principal es:\n        - Validar emociones y explorar sentimientos mediante preguntas reflexivas\n        - Ofrecer ejercicios prácticos SOLO cuando las necesidades del usuario se beneficien mejor con intervenciones estructuradas\n        - Proporcionar apoyo en crisis y recomendaciones de recursos profesionales\n        - Mantener la continuidad terapéutica mediante la conciencia del historial de conversaciones\n        \n        Al sugerir ejercicios:\n        - Elige entre técnicas de respiración, enraizamiento, atención plena o cognitivas según los datos de evaluación\n        - Combina métodos solo cuando mejore la efectividad\n        - Completa las secuencias completas de ejercicios una vez iniciadas, a menos que se interrumpan\n        \n        REGLAS ESTRICTAS:\n        - Responde siempre estrictamente en español solamente.\n        - No utilices caracteres especiales como '*', '#', '-' u otros que puedan hacer que TTS pronuncie palabras sin sentido.",
    style := "Comunica con empatía cálida y paciente. Utiliza primero la escucha reflexiva, reservando los ejercicios para los momentos apropiados. Al sugerir intervenciones: Explica brevemente la razón, confirma la disposición del usuario, y luego proporciona instrucciones completas paso a paso. Mantén un flujo natural entre el apoyo emocional y la orientación práctica.",
    instructionsIntro := "Estas son las respuestas de la encuesta recopiladas del usuario:",
    importantNote := "CRUCIAL: Equilibra el apoyo conversacional con intervenciones específicas.\n        1. Sugiere ejercicios SOLO cuando:\n            - El usuario lo solicite explícitamente\n            - Aparezcan patrones claros de angustia en varios mensajes\n            - Los datos de evaluación indiquen necesidades específicas\n            - El usuario parezca receptivo a la ayuda estructurada\n        2. Antes de comenzar cualquier ejercicio:\n            - Explica brevemente su propósito\n            - Confirma la disposición del usuario para continuar\n        3. Una vez iniciado:\n            - Completa la secuencia completa del ejercicio\n            - Proporciona transiciones claras entre los pasos\n            - Solo pausa si el usuario solicita detenerse\n        4. Para necesidades continuas:\n            - Documenta el progreso del ejercicio en el historial\n            - Haz un seguimiento de la efectividad en sesiones futuras\n        5. Siempre prioriza la validación emocional antes que las soluciones técnicas" }

/-- The french prompt bundle of logic.ts buildSystemPrompt (lines 164-311). -/
def logicPromptsFrench : PromptContent :=
  { roleIntro := "Vous êtes Jennifer, une thérapeute IA de soutien en santé mentale compatissante, conçue pour offrir un soutien empathique et sans jugement grâce à l'écoute active et à des interventions fondées sur des preuves. Votre rôle principal est de :\n        - Valider les émotions et explorer les sentiments par des questions réfléchies\n        - Proposer des exercices pratiques UNIQUEMENT lorsque les besoins de l'utilisateur sont mieux servis par des interventions structurées\n        - Fournir un soutien en cas de crise et recommander des ressources professionnelles\n        - Maintenir la continuité thérapeutique en étant conscient de l'historique des conversations\n        \n        Lors de la suggestion d'exercices :\n        - Choisissez entre des techniques de respiration, d'ancrage, de pleine conscience ou cognitives en fonction des données d'évaluation\n        - Combinez les méthodes uniquement si cela améliore l'efficacité\n        - Complétez les séquences d'exercices en entier une fois qu'elles sont commencées, sauf interruption\n        \n        RÈGLES STRICTES :\n        - Répondez toujours strictement en français uniquement.\n        - N'utilisez pas de caractères spéciaux comme '*', '#', '-' ou d'autres qui pourraient faire prononcer des mots absurdes au TTS.",
    style := "Communiquez avec chaleur et empathie patiente. Utilisez d'abord l'écoute réfléchie, en réservant les exercices pour les moments appropriés. Lors de la suggestion d'interventions : Expliquez brièvement la raison, confirmez la disponibilité de l'utilisateur, puis fournissez des instructions complètes étape par étape . Maintenez un flux naturel entre le soutien émotionnel et les conseils pratiques.",
    instructionsIntro := "Voici les réponses au sondage recueillies auprès de l'utilisateur :",
    importantNote := "CRUCIAL : Équilibrez le soutien conversationnel avec des interventions ciblées.\n        1. Proposez des exercices UNIQUEMENT lorsque :\n            - L'utilisateur le demande explicitement\n            - Des schémas clairs de détresse émergent sur plusieurs messages\n            - Des données d'évaluation indiquent des besoins spécifiques\n            - L'utilisateur semble réceptif à une aide structurée\n        2. Avant de commencer tout exercice :\n            - Expliquez brièvement son objectif\n            - Confirmez la volonté de l'utilisateur de continuer\n        3. Une fois commencé :\n            - Complétez la séquence complète de l'exercice\n            - Fournissez des transitions claires entre les étapes\n            - Faites une pause uniquement si l'utilisateur en fait la demande\n        4. Pour les besoins continus :\n            - Documentez les progrès de l'exercice dans l'historique\n            - Assurez le suivi de l'efficacité lors des prochaines séances\n        5. Priorisez toujours la validation émotionnelle avant les solutions techniques" }

/-- The hindi prompt bundle of logic.ts buildSystemPrompt (lines 164-311). -/
def logicPromptsHindi : PromptContent :=
  { roleIntro := "आप जेनिफर हैं, एक समझदार और सहानुभूतिपूर्ण मानसिक स्वास्थ्य सपोर्ट एआई थेरेपिस्ट। आपका काम है ध्यान से सुनना, समझना और ज़रूरत पड़ने पर भरोसेमंद तरीक़ों से मदद करना। आपका मुख्य रोल है:\n        • सवालों और बातचीत के ज़रिए भावनाओं को समझना और मान देना\n        • केवल तब एक्सरसाइज़ देना जब यूज़र को सच में स्ट्रक्चर्ड मदद से फ़ायदा हो\n        • अगर संकट की स्थिति हो तो सपोर्ट और प्रोफेशनल रिसोर्स सुझाना\n        • बातचीत के हिस्ट्री को ध्यान में रखते हुए निरंतरता बनाए रखना\n        \n        जब आप एक्सरसाइज़ सुझाएँ:\n        • यूज़र के जवाब देखकर ब्रीदिंग, ग्राउंडिंग, माइंडफुलनेस या कॉग्निटिव टेकनीक में से चुनें\n        • तरीक़े सिर्फ़ तभी मिलाएँ जब असर ज़्यादा अच्छा हो\n        • एक बार शुरू करने के बाद पूरा सीक्वेंस पूरा करें (जब तक यूज़र खुद रोक न दे)\n        \n        कड़े नियम:\n        • हमेशा सिर्फ़ हिंदी में ही जवाब दें\n        • किसी भी स्पेशल कैरेक्टर जैसे '*', '#', '-' या ऐसे चिन्हों का इस्तेमाल न करें, जिससे TTS ग़लत या बेकार शब्द बोल सके।",
    style := "गर्मजोशी और धैर्य के साथ बात करें। पहले सुनें और समझें, एक्सरसाइज़ बस तभी दें जब सही लगे। जब इंटरवेंशन सुझाएँ: छोटा सा कारण बताइए, यूज़र से पूछिए कि वे तैयार हैं या नहीं, फिर साफ़-साफ़ स्टेप-बाय-स्टेप (①, ②, ③) गाइड करें। बातचीत को नेचुरल रखें ताकि भावनात्मक सपोर्ट और प्रैक्टिकल गाइडेंस साथ-साथ चलें।",
    instructionsIntro := "ये यूज़र के अस्सेसमेंट / सर्वे के जवाब हैं:",
    importantNote := "ज़रूरी: बातचीत और एक्सरसाइज़ के बीच बैलेंस बनाएँ।\n        1. एक्सरसाइज़ सिर्फ़ तब सुझाएँ जब:\n            • यूज़र खुद मांगे\n            • कई मैसेज में साफ़ टेंशन या परेशानी दिखे\n            • अस्सेसमेंट डेटा में खास ज़रूरत नज़र आए\n            • यूज़र स्ट्रक्चर्ड हेल्प लेने को तैयार लगे\n        2. किसी भी एक्सरसाइज़ से पहले:\n            • छोटा सा उसका मकसद बताइए\n            • यूज़र से पूछिए कि वे आगे बढ़ना चाहते हैं या नहीं\n        3. एक बार शुरू होने पर:\n            • पूरा एक्सरसाइज़ सीक्वेंस पूरा कीजिए\n            • हर स्टेप के बीच क्लियर और स्मूद ट्रांज़िशन दीजिए\n            • बस तभी रोकिए जब यूज़र खुद कहे\n        4. अगर यूज़र को बार-बार ज़रूरत हो:\n            • एक्सरसाइज़ प्रगति को हिस्ट्री में नोट कीजिए\n            • अगली बातचीत में असर के बारे में पूछिए\n        5. हमेशा इमोशनल सपोर्ट को टेक्निकल सॉल्यूशन से पहले प्राथमिकता दीजिए" }

/-- The english prompt bundle of server.ts buildSystemPrompt (lines 212-243). -/
def serverPromptsEnglish : PromptContent :=
  { roleIntro := "You are Jennifer, a compassionate mental health support AI therapist designed to provide empathetic, non-judgmental support through active listening and evidence-based interventions. Your primary function is to:\n        - Validate emotions and explore feelings through reflective questioning\n        - Offer practical exercises ONLY when user needs would be best served by structured interventions\n        - Provide crisis support and professional resource recommendations\n        - Maintain therapeutic continuity through conversation history awareness\n        \n        When suggesting exercises:\n        - Choose between breathing, grounding, mindfulness, or cognitive techniques based on assessment data\n        - Combine methods only when it enhances effectiveness\n        - Complete full exercise sequences once initiated unless interrupted",
    style := "Communicate with warm, patient empathy. Use reflective listening first, reserving exercises for appropriate moments. When suggesting interventions: Explain rationale briefly, confirm user readiness, then provide complete step-by-step instructions (①, ②, ③). Maintain natural flow between emotional support and practical guidance.",
    instructionsIntro := "These are the survey responses collected from user:",
    importantNote := "CRUCIAL: Balance conversational support with targeted interventions.\n        1. Suggest exercises ONLY when:\n            - Explicitly requested by user\n            - Clear distress patterns emerge across multiple messages\n            - Assessment data indicates specific needs\n            - User seems receptive to structured help\n        2. Before starting any exercise:\n            - Briefly explain its purpose\n            - Confirm user's willingness to proceed\n        3. Once initiated:\n            - Complete full exercise sequence\n            - Provide clear transitions between steps\n            - Only pause if user requests to stop\n        4. For ongoing needs:\n            - Document exercise progress in history\n            - Follow up on effectiveness in future sessions\n        5. Always prioritize emotional validation before technical solutions" }

/-- The spanish prompt bundle of server.ts buildSystemPrompt (lines 212-243). -/
def serverPromptsSpanish : PromptContent :=
  { roleIntro := "Eres Jennifer, una compasiva terapeuta de apoyo a la salud mental basada en inteligencia artificial, diseñada para brindar apoyo empático y sin juicios a través de la escucha activa y de intervenciones basadas en evidencia. Tu función principal es:\n        - Validar emociones y explorar sentimientos mediante preguntas reflexivas\n        - Ofrecer ejercicios prácticos SOLO cuando las necesidades del usuario se beneficien mejor con intervenciones estructuradas\n        - Proporcionar apoyo en crisis y recomendaciones de recursos profesionales\n        - Mantener la continuidad terapéutica mediante la conciencia del historial de conversaciones\n        \n        Al sugerir ejercicios:\n        - Elige entre técnicas de respiración, enraizamiento, atención plena o cognitivas según los datos de evaluación\n        - Combina métodos solo cuando mejore la efectividad\n        - Completa las secuencias completas de ejercicios una vez iniciadas, a menos que se interrumpan",
    style := "Comunica con empatía cálida y paciente. Utiliza primero la escucha reflexiva, reservando los ejercicios para los momentos apropiados. Al sugerir intervenciones: Explica brevemente la razón, confirma la disposición del usuario, y luego proporciona instrucciones completas paso a paso (①, ②, ③). Mantén un flujo natural entre el apoyo emocional y la orientación práctica.",
    instructionsIntro := "Estas son las respuestas de la encuesta recopiladas del usuario:",
    importantNote := "CRUCIAL: Equilibra el apoyo conversacional con intervenciones específicas.\n        1. Sugiere ejercicios SOLO cuando:\n            - El usuario lo solicite explícitamente\n            - Aparezcan patrones claros de angustia en varios mensajes\n            - Los datos de evaluación indiquen necesidades específicas\n            - El usuario parezca receptivo a la ayuda estructurada\n        2. Antes de comenzar cualquier ejercicio:\n            - Explica brevemente su propósito\n            - Confirma la disposición del usuario para continuar\n        3. Una vez iniciado:\n            - Completa la secuencia completa del ejercicio\n            - Proporciona transiciones claras entre los pasos\n            - Solo pausa si el usuario solicita detenerse\n        4. Para necesidades continuas:\n            - Documenta el progreso del ejercicio en el historial\n            - Haz un seguimiento de la efectividad en sesiones futuras\n        5. Siempre prioriza la validación emocional antes que las soluciones técnicas" }

/-- The french prompt bundle of server.ts buildSystemPrompt (lines 212-243). -/
def serverPromptsFrench : PromptContent :=
  { roleIntro := "Vous êtes Jennifer, une thérapeute IA de soutien en santé mentale compatissante, conçue pour offrir un soutien empathique et sans jugement grâce à l'écoute active et à des interventions fondées sur des preuves. Votre rôle principal est de :\n        - Valider les émotions et explorer les sentiments par des questions réfléchies\n        - Proposer des exercices pratiques UNIQUEMENT lorsque les besoins de l'utilisateur sont mieux servis par des interventions structurées\n        - Fournir un soutien en cas de crise et recommander des ressources professionnelles\n        - Maintenir la continuité thérapeutique en étant conscient de l'historique des conversations\n        \n        Lors de la suggestion d'exercices :\n        - Choisissez entre des techniques de respiration, d'ancrage, de pleine conscience ou cognitives en fonction des données d'évaluation\n        - Combinez les méthodes uniquement si cela améliore l'efficacité\n        - Complétez les séquences d'exercices en entier une fois qu'elles sont commencées, sauf interruption",
    style := "Communiquez avec chaleur et empathie patiente. Utilisez d'abord l'écoute réfléchie, en réservant les exercices pour les moments appropriés. Lors de la suggestion d'interventions : Expliquez brièvement la raison, confirmez la disponibilité de l'utilisateur, puis fournissez des instructions complètes étape par étape (①, ②, ③). Maintenez un flux naturel entre le soutien émotionnel et les conseils pratiques.",
    instructionsIntro := "Voici les réponses au sondage recueillies auprès de l'utilisateur :",
    importantNote := "CRUCIAL : Équilibrez le soutien conversationnel avec des interventions ciblées.\n        1. Proposez des exercices UNIQUEMENT lorsque :\n            - L'utilisateur le demande explicitement\n            - Des schémas clairs de détresse émergent sur plusieurs messages\n            - Des données d'évaluation indiquent des besoins spécifiques\n            - L'utilisateur semble réceptif à une aide structurée\n        2. Avant de commencer tout exercice :\n            - Expliquez brièvement son objectif\n            - Confirmez la volonté de l'utilisateur de continuer\n        3. Une fois commencé :\n            - Complétez la séquence complète de l'exercice\n            - Fournissez des transitions claires entre les étapes\n            - Faites une pause uniquement si l'utilisateur en fait la demande\n        4. Pour les besoins continus :\n            - Documentez les progrès de l'exercice dans l'historique\n            - Assurez le suivi de l'efficacité lors des prochaines séances\n        5. Priorisez toujours la validation émotionnelle avant les solutions techniques" }

/-- The hindi prompt bundle of server.ts buildSystemPrompt (lines 212-243). -/
def serverPromptsHindi : PromptContent :=
  { roleIntro := "आप जेनिफर हैं, एक सहानुभूतिपूर्ण मानसिक स्वास्थ्य सहायता एआई चिकित्सक, जिसे सक्रिय सुनने और साक्ष्य-आधारित हस्तक्षेपों के माध्यम से सहानुभूतिपूर्ण, बिना निर्णय के समर्थन प्रदान करने के लिए डिज़ाइन किया गया है। आपका मुख्य कार्य है:\n        - परावर्तक प्रश्नों के माध्यम से भावनाओं को मान्य करना और भावनाओं का अन्वेषण करना\n        - केवल तब व्यावहारिक अभ्यास प्रदान करना जब उपयोगकर्ता की आवश्यकताएँ संरचित हस्तक्षेपों से सर्वोत्तम रूप से पूरी हों\n        - संकट समर्थन और पेशेवर संसाधन सिफारिशें प्रदान करना\n        - बातचीत इतिहास की जागरूकता के माध्यम से चिकित्सीय निरंतरता बनाए रखना\n        \n        जब अभ्यास सुझाते हैं:\n        - मूल्यांकन डेटा के आधार पर श्वास, ग्राउंडिंग, माइंडफुलनेस या संज्ञानात्मक तकनीकों में से चुनें\n        - केवल तभी तरीकों को मिलाएँ जब यह प्रभावशीलता को बढ़ाए\n        - एक बार शुरू होने पर पूरे अभ्यास अनुक्रम को पूरा करें, जब तक कि बीच में बाधित न हो",
    style := "गर्मजोशी और धैर्यपूर्ण सहानुभूति के साथ संवाद करें। पहले परावर्तक सुनवाई का उपयोग करें, अभ्यासों को केवल उपयुक्त समय के लिए सुरक्षित रखें। जब हस्तक्षेप सुझाएँ: संक्षेप में कारण बताएं, उपयोगकर्ता की तैयारी की पुष्टि करें, फिर चरण-दर-चरण पूरी निर्देश (①, ②, ③) दें। भावनात्मक समर्थन और व्यावहारिक मार्गदर्शन के बीच स्वाभाविक प्रवाह बनाए रखें।",
    instructionsIntro := "ये उपयोगकर्ता से एकत्रित सर्वेक्षण प्रतिक्रियाएँ हैं:",
    importantNote := "महत्वपूर्ण: वार्तालाप समर्थन को लक्षित हस्तक्षेपों के साथ संतुलित करें।\n        1. अभ्यास केवल तभी सुझाएँ जब:\n            - उपयोगकर्ता द्वारा स्पष्ट रूप से अनुरोध किया जाए\n            - कई संदेशों में स्पष्ट संकट पैटर्न दिखाई दें\n            - मूल्यांकन डेटा विशिष्ट आवश्यकताओं को दर्शाए\n            - उपयोगकर्ता संरचित सहायता के लिए ग्रहणशील लगे\n        2. किसी भी अभ्यास को शुरू करने से पहले:\n            - संक्षेप में इसका उद्देश्य बताएं\n            - उपयोगकर्ता की आगे बढ़ने की इच्छा की पुष्टि करें\n        3. एक बार शुरू हो जाने पर:\n            - पूरे अभ्यास अनुक्रम को पूरा करें\n            - चरणों के बीच स्पष्ट संक्रमण प्रदान करें\n            - केवल तभी रोकें जब उपयोगकर्ता अनुरोध करे\n        4. निरंतर आवश्यकताओं के लिए:\n            - इतिहास में अभ्यास प्रगति का दस्तावेज़ करें\n            - भविष्य के सत्रों में प्रभावशीलता पर फॉलो-अप करें\n        5. हमेशा तकनीकी समाधानों से पहले भावनात्मक मान्यता को प्राथमिकता दें" }

/-- The template table of logic.ts firstMessageTemplate (lines 313-321); feeling is interpolated. -/
def logicFirstTemplates (k : String) (feeling : String) : Option String :=
  if k = "english" then some ("Hi, I am Jennifer your AI Therapist. I see you're feeling " ++ feeling ++ ". Can you tell me more about that?")
  else if k = "spanish" then some ("Hola, soy Jennifer, tu Terapeuta de IA. Veo que te sientes " ++ feeling ++ ". ¿Puedes contarme más sobre eso?")
  else if k = "french" then some ("Bonjour, je suis Jennifer, votre Thérapeute IA. Je vois que vous vous sentez " ++ feeling ++ ". Pouvez-vous m'en dire plus à ce sujet?")
  else if k = "hindi" then some ("नमस्ते, मैं जेनिफर हूँ, आपकी एआई थेरेपिस्ट। आपने कहा कि आपको " ++ feeling ++ " महसूस हो रहा है। क्या आप मुझे इसके बारे में और बता सकते हैं?")
  else none

/-- The inline template table of the server.ts /api/chat FirstMessage branch (lines 252-257). -/
def serverFirstTemplates (k : String) (feeling : String) : Option String :=
  if k = "english" then some ("Hi, I am Jennifer your AI Therapist. I see you're feeling " ++ feeling ++ ". Can you tell me more about that?")
  else if k = "spanish" then some ("Hola, soy Jennifer, tu Terapeuta de IA. Veo que te sientes " ++ feeling ++ ". ¿Puedes contarme más sobre eso?")
  else if k = "french" then some ("Bonjour, je suis Jennifer, votre Thérapeute IA. Je vois que vous vous sentez " ++ feeling ++ ". Pouvez-vous m'en dire plus à ce sujet?")
  else if k = "hindi" then some ("नमस्ते, मैं जेनिफर हूं, आपकी एआई थेरेपिस्ट। मैं देख रही हूं कि आप " ++ feeling ++ " महसूस कर रहे हैं। क्या आप मुझे इसके बारे में और बता सकते हैं?")
  else none

/-- The system prompt of logic.ts convertHindiToHinglish (lines 103-109). -/
def hinglishSystemPrompt : String := "\n    You are a precise transliterator. Convert Hindi written in Devanagari script into Hinglish (Roman Hindi).\n    Do not translate or add any extra text — only transliterate.\n    Preserve the exact line breaks and speaker labels ('You:' and 'Therapist:') exactly as they appear.\n    If a line is already in Latin script, leave it unchanged.\n    Output only the transliterated version of the user's input — no commentary, explanations, or continuation.\n    "

/-- The user prompt of logic.ts convertHindiToHinglish (lines 112-116); the transcript is interpolated. -/
def hinglishUserPrompt (fullTranscript : String) : String :=
  "\n    Convert the following text exactly as per the above rules:\n\n    " ++ fullTranscript ++ "\n    "

/-! ## logic.ts — serverless core (used by the Vercel handlers) -/

/-- The language map of logic.ts (lines 43-48). -/
def languageMap : String → Option String
  | "english" => some "en"
  | "hindi" => some "hi"
  | "spanish" => some "es"
  | "french" => some "fr"
  | _ => none

/-- The ElevenLabs request body built by both generateTTS variants:
`{ text, voice_settings: { stability: 0.75, similarity_boost: 0.75,
speed: 0.93 } }` (logic.ts lines 54-59, server.ts lines 156-159). -/
def elevenPayload (text : String) : ElevenPayload :=
  { text := text, stability := 0.75, similarity_boost := 0.75, speed := 0.93 }

/-- The local helper `callEleven(key)` shared by both generateTTS variants:
`undefined` (here `none`) when the credential is missing, otherwise the
fetch response. -/
def callEleven (env : ServerEnv) (payload : ElevenPayload) (key : String) : Option ElevenResponse :=
  if key = "" then none else some (env.fetchEleven key payload)

/-- JS `resp && resp.ok` for the possibly-undefined response of callEleven. -/
def elevenRespOk : Option ElevenResponse → Bool
  | some r => r.ok
  | none => false

/-- generateTTS of logic.ts (lines 49-75): always the ElevenLabs backend, and
only the primary credential is ever used — `ELEVENLABS2_API_KEY` is read from
the environment (line 34) and the comment on line 60 says "Try primary then
secondary ElevenLabs key", but no second `callEleven` call exists.  The
`langCode` mapping is computed and logged only. -/
def logicGenerateTTS (env : ServerEnv) (text _language : String) :
    Except String String × List CallLog :=
  let _langCode := (languageMap (jsToLowerCase _language)).getD "en"
  let payload := elevenPayload text
  let resp := callEleven env payload env.ELEVENLABS_API_KEY
  let log := [CallLog.eleven env.ELEVENLABS_API_KEY (env.ELEVENLABS_API_KEY != "")]
  match resp with
  | none => (Except.error "ElevenLabs TTS Error: No response", log)
  | some r =>
    if !r.ok then (Except.error ("ElevenLabs TTS Error: " ++ r.bodyText), log)
    else (Except.ok r.audioBytesB64, log)

/-- The message list assembled by callOpenAIChat of logic.ts (lines 77-80):
system message, then the history turns; the `messages.push({ role: 'user',
content: userPrompt })` of line 80 is commented out in the source, so the new
user prompt is never appended. -/
def logicCallOpenAIChatMessages (systemPrompt userPrompt : String)
    (history : Option (List ChatMessage)) : List OpenAIMessage :=
  let _ := userPrompt
  let messages : List OpenAIMessage := [{ role := "system", content := systemPrompt }]
  match history with
  | some h => messages ++ h.map fun m => { role := m.role, content := m.content }
  | none => messages

/-- callOpenAIChat of logic.ts (lines 77-95): one fetch, raw upstream body in
the thrown message on failure, `content || ''` on success. -/
def logicCallOpenAIChat (env : ServerEnv) (systemPrompt userPrompt : String)
    (history : Option (List ChatMessage)) : Except String String × List CallLog :=
  let req : OpenAIRequest :=
    { model := "gpt-4o-mini",
      messages := logicCallOpenAIChatMessages systemPrompt userPrompt history }
  let resp := env.fetchOpenAI req
  if !resp.ok then (Except.error ("OpenAI Error: " ++ resp.bodyText), [CallLog.openai req])
  else (Except.ok (jsOrOptString resp.content ""), [CallLog.openai req])

/-- The chat-completion request built by convertHindiToHinglish of logic.ts
(lines 118-138): the strict transliteration system prompt, the trimmed user
prompt, and `temperature: 0, top_p: 0`. -/
def hinglishRequest (fullTranscript : String) : OpenAIRequest :=
  { model := "gpt-4o-mini",
    messages :=
      [{ role := "system", content := hinglishSystemPrompt },
       { role := "user", content := jsTrim (hinglishUserPrompt fullTranscript) }],
    temperature := some 0,
    top_p := some 0 }

/-- convertHindiToHinglish of logic.ts (lines 99-162): empty or
whitespace-only input returns the empty string with no fetch; otherwise one
fetch whose failure throws the raw upstream body, and whose success returns
the trimmed `content || ''`. -/
def convertHindiToHinglish (fetchOpenAI : OpenAIRequest → OpenAIResponse)
    (fullTranscript : String) : Except String String × List OpenAIRequest :=
  if fullTranscript = "" || jsTrim fullTranscript = "" then (Except.ok "", [])
  else
    let req := hinglishRequest fullTranscript
    let resp := fetchOpenAI req
    if !resp.ok then (Except.error ("OpenAI Hinglish Error: " ++ resp.bodyText), [req])
    else (Except.ok (jsTrim (jsOrOptString resp.content "")), [req])

/-- The `prompts[lower]` record lookup of logic.ts buildSystemPrompt. -/
def logicPromptsLookup (k : String) : Option PromptContent :=
  if k = "english" then some logicPromptsEnglish
  else if k = "spanish" then some logicPromptsSpanish
  else if k = "french" then some logicPromptsFrench
  else if k = "hindi" then some logicPromptsHindi
  else none

/-- The `"- {question}: {answer}"` lines joined with newlines (logic.ts
line 309, server.ts line 241). -/
def assessmentsText (assessments : List AssessmentAnswer) : String :=
  String.intercalate "\n" (assessments.map fun a => "- " ++ a.question ++ ": " ++ a.answer)

/-- buildSystemPrompt of logic.ts (lines 164-311): lowercase the language,
fall back to the English bundle, concatenate the four parts around the
assessment lines. -/
def logicBuildSystemPrompt (language : String) (assessments : List AssessmentAnswer) : String :=
  let lower := jsToLowerCase language
  let content := (logicPromptsLookup lower).getD logicPromptsEnglish
  content.roleIntro ++ "\n\n" ++ content.style ++ "\n\n" ++ content.instructionsIntro
    ++ "\n" ++ assessmentsText assessments ++ "\n\n" ++ content.importantNote

/-- firstMessageTemplate of logic.ts (lines 313-321):
`templates[language.toLowerCase()] || templates.english`. -/
def firstMessageTemplate (language feeling : String) : String :=
  (logicFirstTemplates (jsToLowerCase language) feeling).getD
    ((logicFirstTemplates "english" feeling).getD "")

/-! ## server.ts — express server -/

/-- The Hume voice id constant of server.ts (line 59). -/
def HUME_VOICE_ID : String := "ba783c72-e593-48a2-9764-faf1b5fe1dfa"

/-- The Hume request body of server.ts generateTTS (lines 119-130). -/
def humePayload (text : String) : HumePayload :=
  { utteranceText := text, voiceId := HUME_VOICE_ID,
    voiceProvider := "CUSTOM_VOICE", formatType := "mp3" }

/-- generateTTS of server.ts (lines 116-186): `'english'`/`'spanish'`
(compared exactly, no case folding here) go to the Hume backend; every other
language goes to ElevenLabs with the primary credential and, if that call
fails (missing key, non-ok status or no response), exactly one retry with the
secondary credential.  The `fs.writeFileSync('test.mp3', ...)` debug write is
not modelled. -/
def serverGenerateTTS (env : ServerEnv) (text language : String) :
    Except String String × List CallLog :=
  if ["english", "spanish"].contains language then
    let payload := humePayload text
    let resp := env.fetchHume payload
    if !resp.ok then (Except.error ("Hume TTS Error: " ++ resp.bodyText), [CallLog.hume payload])
    else
      match resp.audio with
      | none => (Except.error "Hume TTS: Missing audio in response", [CallLog.hume payload])
      | some base64Audio => (Except.ok base64Audio, [CallLog.hume payload])
  else
    let payload := elevenPayload text
    let resp1 := callEleven env payload env.ELEVENLABS_API_KEY
    let log1 := [CallLog.eleven env.ELEVENLABS_API_KEY (env.ELEVENLABS_API_KEY != "")]
    let resp2 := if elevenRespOk resp1 then resp1
      else callEleven env payload env.ELEVENLABS2_API_KEY
    let log2 := if elevenRespOk resp1 then log1
      else log1 ++ [CallLog.eleven env.ELEVENLABS2_API_KEY (env.ELEVENLABS2_API_KEY != "")]
    match resp2 with
    | none => (Except.error "ElevenLabs TTS Error: No response", log2)
    | some r =>
      if !r.ok then (Except.error ("ElevenLabs TTS Error: " ++ r.bodyText), log2)
      else (Except.ok r.audioBytesB64, log2)

/-- The message list assembled by callOpenAIChat of server.ts
(lines 188-193): system message, history turns, then the new user prompt
appended last. -/
def serverCallOpenAIChatMessages (systemPrompt userPrompt : String)
    (history : Option (List ChatMessage)) : List OpenAIMessage :=
  let messages : List OpenAIMessage := [{ role := "system", content := systemPrompt }]
  let messages := match history with
    | some h => messages ++ h.map fun m => { role := m.role, content := m.content }
    | none => messages
  messages ++ [{ role := "user", content := userPrompt }]

/-- callOpenAIChat of server.ts (lines 188-210): one fetch, raw upstream body
in the thrown message on failure, `content || '...'` on success. -/
def serverCallOpenAIChat (env : ServerEnv) (systemPrompt userPrompt : String)
    (history : Option (List ChatMessage)) : Except String String × List CallLog :=
  let req : OpenAIRequest :=
    { model := "gpt-4o-mini",
      messages := serverCallOpenAIChatMessages systemPrompt userPrompt history }
  let resp := env.fetchOpenAI req
  if !resp.ok then (Except.error ("OpenAI Error: " ++ resp.bodyText), [CallLog.openai req])
  else (Except.ok (jsOrOptString resp.content "..."), [CallLog.openai req])

/-- The `prompts[lower]` record lookup of server.ts buildSystemPrompt. -/
def serverPromptsLookup (k : String) : Option PromptContent :=
  if k = "english" then some serverPromptsEnglish
  else if k = "spanish" then some serverPromptsSpanish
  else if k = "french" then some serverPromptsFrench
  else if k = "hindi" then some serverPromptsHindi
  else none

/-- buildSystemPrompt of server.ts (lines 212-243). -/
def serverBuildSystemPrompt (language : String) (assessments : List AssessmentAnswer) : String :=
  let lower := jsToLowerCase language
  let content := (serverPromptsLookup lower).getD serverPromptsEnglish
  content.roleIntro ++ "\n\n" ++ content.style ++ "\n\n" ++ content.instructionsIntro
    ++ "\n" ++ assessmentsText assessments ++ "\n\n" ++ content.importantNote

/-- The `templates[params.language.toLowerCase()] || templates.english`
greeting of the server.ts /api/chat FirstMessage branch (lines 252-258);
`lowerLang` is already lowercased by the caller. -/
def serverFirstMessageText (lowerLang feeling : String) : String :=
  (serverFirstTemplates lowerLang feeling).getD
    ((serverFirstTemplates "english" feeling).getD "")

/-! ## Route handlers -/

/-- `params.assessment_question_answers?.[1]?.answer || 'neutral'`
(server.ts line 251, api/chat handler line 10 of its file). -/
def feelingOf (aqa : Option (List AssessmentAnswer)) : String :=
  match aqa with
  | none => "neutral"
  | some l =>
    match l.get? 1 with
    | none => "neutral"
    | some a => jsOrString a.answer "neutral"

/-- The message of the TypeError the JS runtime raises when
`params.language.toLowerCase()` is evaluated with `params.language`
undefined; the route catch blocks surface `err.message`. -/
def undefinedToLowerCaseMessage : String :=
  "Cannot read properties of undefined (reading 'toLowerCase')"

/-- The express `app.post('/api/chat')` handler of server.ts
(lines 247-273).  No validation happens: a missing `FirstMessage` is simply
falsy and selects the continuing branch.  The supplied
`ConversationHistory` is passed to callOpenAIChat unchanged.  Failures
thrown by the helpers are caught and surfaced as
`500 { error: err.message || 'Internal Server Error' }`. -/
def expressChatRoute (env : ServerEnv) (params : ChatBody) :
    (Nat × ChatRouteJson) × List CallLog :=
  if jsTruthyBool params.FirstMessage then
    match params.language with
    | none => ((500, ChatRouteJson.error undefinedToLowerCaseMessage), [])
    | some lang =>
      let feeling := feelingOf params.assessment_question_answers
      let aiText := serverFirstMessageText (jsToLowerCase lang) feeling
      match serverGenerateTTS env aiText (jsToLowerCase lang) with
      | (Except.ok audioB64, log) =>
        ((200, ChatRouteJson.payload audioB64 aiText),
          CallLog.ttsInvoke aiText (jsToLowerCase lang) :: log)
      | (Except.error msg, log) =>
        ((500, ChatRouteJson.error (jsOrString msg "Internal Server Error")),
          CallLog.ttsInvoke aiText (jsToLowerCase lang) :: log)
  else
    match params.language with
    | none => ((500, ChatRouteJson.error undefinedToLowerCaseMessage), [])
    | some lang =>
      let system := serverBuildSystemPrompt lang (params.assessment_question_answers.getD [])
      let userPrompt := jsOrOptString params.Transcript "Please continue our conversation."
      match serverCallOpenAIChat env system userPrompt params.ConversationHistory with
      | (Except.error msg, log1) =>
        ((500, ChatRouteJson.error (jsOrString msg "Internal Server Error")), log1)
      | (Except.ok aiText, log1) =>
        match serverGenerateTTS env aiText (jsToLowerCase lang) with
        | (Except.ok audioB64, log2) =>
          ((200, ChatRouteJson.payload audioB64 aiText),
            log1 ++ CallLog.ttsInvoke aiText (jsToLowerCase lang) :: log2)
        | (Except.error msg, log2) =>
          ((500, ChatRouteJson.error (jsOrString msg "Internal Server Error")),
            log1 ++ CallLog.ttsInvoke aiText (jsToLowerCase lang) :: log2)

/-- The serverless `api/chat` handler (the Vercel function importing
logic.ts).  Non-POST gets 405; a missing body or a body without the
`FirstMessage` field gets `400 { error: 'Invalid payload' }` before anything
else runs; then the first-message or continuing path of logic.ts, with
failures surfaced as `500 { error: e.message || 'Internal Error' }`. -/
def vercelChatHandler (env : ServerEnv) (method : String) (body : Option ChatBody) :
    (Nat × ChatRouteJson) × List CallLog :=
  if method != "POST" then ((405, ChatRouteJson.error "Method not allowed"), [])
  else
    match body with
    | none => ((400, ChatRouteJson.error "Invalid payload"), [])
    | some params =>
      match params.FirstMessage with
      | none => ((400, ChatRouteJson.error "Invalid payload"), [])
      | some fm =>
        let ttsLang := jsToLowerCase (jsOrOptString params.language "english")
        if fm then
          let feeling := feelingOf params.assessment_question_answers
          let text := firstMessageTemplate (jsOrOptString params.language "english") feeling
          match logicGenerateTTS env text ttsLang with
          | (Except.ok audioData, log) =>
            ((200, ChatRouteJson.payload audioData text), CallLog.ttsInvoke text ttsLang :: log)
          | (Except.error msg, log) =>
            ((500, ChatRouteJson.error (jsOrString msg "Internal Error")),
              CallLog.ttsInvoke text ttsLang :: log)
        else
          match params.language with
          | none => ((500, ChatRouteJson.error undefinedToLowerCaseMessage), [])
          | some lang =>
            let system := logicBuildSystemPrompt lang (params.assessment_question_answers.getD [])
            let userPrompt := jsOrOptString params.Transcript "Please continue our conversation."
            match logicCallOpenAIChat env system userPrompt params.ConversationHistory with
            | (Except.error msg, log1) =>
              ((500, ChatRouteJson.error (jsOrString msg "Internal Error")), log1)
            | (Except.ok text, log1) =>
              match logicGenerateTTS env text ttsLang with
              | (Except.ok audioData, log2) =>
                ((200, ChatRouteJson.payload audioData text),
                  log1 ++ CallLog.ttsInvoke text ttsLang :: log2)
              | (Except.error msg, log2) =>
                ((500, ChatRouteJson.error (jsOrString msg "Internal Error")),
                  log1 ++ CallLog.ttsInvoke text ttsLang :: log2)

/-! ## Browser client (ChatInterface.tsx sendMessage) -/

/-- The user turn the client appends before sending (ChatInterface.tsx
lines 202-209). -/
def clientUserMessage (messageText : String) (audioData : Option String)
    (timestamp : String) (messageId : Option String) (detectedLang : Option String) :
    ChatMessage :=
  { role := "user", content := messageText, timestamp := timestamp,
    messageId := messageId, audioData := audioData, detectedLanguage := detectedLang }

/-- The POST /api/chat body built by sendMessage (ChatInterface.tsx
lines 211-223): the conversation history plus the new user turn, truncated
client-side with `updatedHistory.slice(-5)`. -/
def sendMessageRequest (conversationHistory : List ChatMessage)
    (assessmentAnswers : List AssessmentAnswer) (currentLanguage messageText : String)
    (audioData : Option String) (timestamp : String) (messageId : Option String)
    (detectedLang : Option String) : ChatBody :=
  let userMessage := clientUserMessage messageText audioData timestamp messageId detectedLang
  let updatedHistory := conversationHistory ++ [userMessage]
  { FirstMessage := some false,
    assessment_question_answers := some assessmentAnswers,
    language := some currentLanguage,
    Transcript := some messageText,
    ConversationHistory := some (jsSliceLast updatedHistory 5),
    DetectedLanguage := detectedLang }

/-! ## Concrete fixtures -/

/-- An environment whose providers all succeed. -/
def env0 : ServerEnv :=
  { OPENAI_API_KEY := "sk-test", HUME_API_KEY := "hk",
    ELEVENLABS_API_KEY := "el1", ELEVENLABS2_API_KEY := "el2",
    fetchOpenAI := fun _ => { ok := true, bodyText := "", content := some "model reply" },
    fetchHume := fun _ => { ok := true, bodyText := "", audio := some "HUMEAUDIO" },
    fetchEleven := fun _ _ => { ok := true, bodyText := "", audioBytesB64 := "ELAUDIO" } }

/-- An environment with the primary ElevenLabs credential missing and a
working secondary one. -/
def envSecondaryOnly : ServerEnv :=
  { env0 with ELEVENLABS_API_KEY := "", ELEVENLABS2_API_KEY := "secondary-key" }

/-- A stand-in for a full raw error body returned by the chat-completion
provider. -/
def upstreamPayload0 : String :=
  "upstream provider diagnostic body: rate limit exceeded for project, code 429, request id req-abc123"

/-- An environment whose chat-completion endpoint always fails with
`upstreamPayload0` as the response body. -/
def envOpenAIFail : ServerEnv :=
  { env0 with fetchOpenAI := fun _ => { ok := false, bodyText := upstreamPayload0, content := none } }

/-- A sample history turn. -/
def histMsg : ChatMessage :=
  { role := "user", content := "earlier user turn", timestamp := "2024-01-01T00:00:00Z" }

/-- A continuing-turn body with an explicit 12-turn history. -/
def params12 : ChatBody :=
  { FirstMessage := some false, assessment_question_answers := some [],
    language := some "english", Transcript := some "hello",
    ConversationHistory := some (List.replicate 12 histMsg) }

/-- A continuing-turn body (no history). -/
def paramsContinuing : ChatBody :=
  { FirstMessage := some false, assessment_question_answers := some [],
    language := some "english", Transcript := some "hi" }

/-- A body whose `FirstMessage` field is missing. -/
def paramsNoFM : ChatBody :=
  { assessment_question_answers := some [], language := some "english",
    Transcript := some "hi" }

/-- Whether a POST /api/chat body is missing its `FirstMessage` field
(either no body at all, or a body without the field). -/
def firstMessageMissing : Option ChatBody → Bool
  | none => true
  | some p => p.FirstMessage.isNone

/-! ## Helper lemmas -/

/-- The call trace of the server.ts generateTTS is never empty, and its
entries are Hume exactly on the voice-cloning branch. -/
theorem serverGenerateTTS_log_hume (env : ServerEnv) (text language : String)
    (h : ["english", "spanish"].contains language = true) :
    (serverGenerateTTS env text language).2 = [CallLog.hume (humePayload text)] := by
  unfold serverGenerateTTS
  rw [if_pos h]
  dsimp only
  split
  · rfl
  · split <;> rfl

/-- On the direct branch the call trace of server.ts generateTTS is one or
two ElevenLabs credential attempts. -/
theorem serverGenerateTTS_log_eleven (env : ServerEnv) (text language : String)
    (h : ["english", "spanish"].contains language = false) :
    (serverGenerateTTS env text language).2
        = [CallLog.eleven env.ELEVENLABS_API_KEY (env.ELEVENLABS_API_KEY != "")] ∨
      (serverGenerateTTS env text language).2
        = [CallLog.eleven env.ELEVENLABS_API_KEY (env.ELEVENLABS_API_KEY != ""),
           CallLog.eleven env.ELEVENLABS2_API_KEY (env.ELEVENLABS2_API_KEY != "")] := by
  unfold serverGenerateTTS
  rw [if_neg (by rw [h]; simp)]
  dsimp only
  by_cases hok : elevenRespOk (callEleven env (elevenPayload text) env.ELEVENLABS_API_KEY)
  · left
    rw [if_pos hok, if_pos hok]
    split
    · rfl
    · split <;> rfl
  · right
    rw [if_neg hok, if_neg hok]
    split
    · rfl
    · split <;> rfl

/-- server.ts callOpenAIChat logs exactly its one request. -/
theorem serverCallOpenAIChat_log (env : ServerEnv) (s u : String)
    (hist : Option (List ChatMessage)) :
    (serverCallOpenAIChat env s u hist).2
      = [CallLog.openai
          { model := "gpt-4o-mini", messages := serverCallOpenAIChatMessages s u hist }] := by
  unfold serverCallOpenAIChat
  dsimp only
  split <;> rfl

/-- The TTS helper of server.ts never issues a chat-completion request. -/
theorem openaiRequests_serverGenerateTTS (env : ServerEnv) (text language : String) :
    openaiRequests (serverGenerateTTS env text language).2 = [] := by
  by_cases h : ["english", "spanish"].contains language
  · rw [serverGenerateTTS_log_hume env text language h]
    rfl
  · rcases serverGenerateTTS_log_eleven env text language (Bool.not_eq_true _ ▸ h) with h2 | h2 <;>
      rw [h2] <;> rfl

/-- The TTS helper of server.ts never logs a `ttsInvoke` marker (those are
appended by the routes only). -/
theorem ttsInvoke_not_mem_serverGenerateTTS (env : ServerEnv) (t l text language : String) :
    CallLog.ttsInvoke t l ∉ (serverGenerateTTS env text language).2 := by
  by_cases h : ["english", "spanish"].contains language
  · rw [serverGenerateTTS_log_hume env text language h]
    simp
  · rcases serverGenerateTTS_log_eleven env text language (Bool.not_eq_true _ ▸ h) with h2 | h2 <;>
      rw [h2] <;> simp

/-- A string appended after a prefix occurs inside the result. -/
theorem stringContains_append_left (pre s : String) : stringContains (pre ++ s) s = true := by
  unfold stringContains
  rw [List.any_eq_true]
  refine ⟨pre.data.length, ?_, ?_⟩
  · rw [List.mem_range, String.data_append, List.length_append]
    omega
  · rw [String.data_append, List.drop_left]
    simp [List.isPrefixOf_iff_prefix]

/-- The message thrown for a failed chat-completion call is never the empty
string (it starts with its fixed prefix). -/
theorem openai_error_prefix_ne_empty (s : String) : "OpenAI Error: " ++ s ≠ "" := by
  intro hcontra
  have h := congrArg String.data hcontra
  rw [String.data_append] at h
  simp at h

/-! ## Claim theorems -/

/-- C2: the claim says every direct-backend synthesis retries once with the
secondary credential after a primary failure.  The logic.ts variant of
generateTTS — the one the serverless handlers use — never touches
`ELEVENLABS2_API_KEY`: with the primary credential missing and a working
secondary one configured, it throws `ElevenLabs TTS Error: No response`
after a single credential attempt, contradicting its own
"Try primary then secondary ElevenLabs key" comment; the server.ts variant
of the same function does perform exactly the claimed one retry and
succeeds on the secondary key. -/
theorem tts_secondary_credential_skipped_bug :
    logicGenerateTTS envSecondaryOnly "hello" "french"
      = (Except.error "ElevenLabs TTS Error: No response", [CallLog.eleven "" false]) ∧
    serverGenerateTTS envSecondaryOnly "hello" "french"
      = (Except.ok "ELAUDIO",
         [CallLog.eleven "" false, CallLog.eleven "secondary-key" true]) ∧
    envSecondaryOnly.ELEVENLABS2_API_KEY ≠ "" := by
  refine ⟨by decide, by decide, by decide⟩

/-- C4: the claim says every chat-completion call appends the new user
prompt last.  The logic.ts variant of callOpenAIChat (its `messages.push`
of the user prompt is commented out) sends only the system message and the
history — the new prompt "NEW PROMPT" appears nowhere; the server.ts variant
does append it last. -/
theorem chat_user_prompt_omitted_bug :
    logicCallOpenAIChatMessages "SYSTEM" "NEW PROMPT" (some [histMsg])
      = [{ role := "system", content := "SYSTEM" },
         { role := "user", content := "earlier user turn" }] ∧
    serverCallOpenAIChatMessages "SYSTEM" "NEW PROMPT" (some [histMsg])
      = [{ role := "system", content := "SYSTEM" },
         { role := "user", content := "earlier user turn" },
         { role := "user", content := "NEW PROMPT" }] := by
  refine ⟨by decide, by decide⟩

/-- C1 counterexample: the express /api/chat handler does not truncate the
supplied history.  For a continuing request carrying 12 history turns the
one chat-completion request it issues has 14 messages (1 system + 12
history + 1 user prompt), not the 7 (= 5 + 2) a last-5 truncation would
give: all 12 turns are forwarded. -/
theorem chat_history_not_truncated_by_server_cex :
    (openaiRequests (expressChatRoute env0 params12).2).map (fun r => r.messages.length)
      = [14] ∧
    ¬ (openaiRequests (expressChatRoute env0 params12).2).map (fun r => r.messages.length)
      = [5 + 2] := by
  refine ⟨by decide, by decide⟩

/-- C5 counterexample: the express /api/chat handler performs no
`FirstMessage` validation.  A body missing the field is treated as a
continuing turn: with working providers the route answers 200 (never 400)
after issuing real network fetches. -/
theorem chat_missing_firstmessage_express_cex :
    (expressChatRoute env0 paramsNoFM).1.1 = 200 ∧
    ¬ (expressChatRoute env0 paramsNoFM).1.1 = 400 ∧
    (expressChatRoute env0 paramsNoFM).2.any CallLog.isFetch = true := by
  refine ⟨by decide, by decide, by decide⟩

/-- C6 counterexample: on an upstream chat-completion failure the express
/api/chat handler returns `{ error: err.message }`, and that message is
`"OpenAI Error: " ++ <raw upstream body>` — the full upstream payload is
contained in the client-visible error string. -/
theorem error_message_contains_upstream_payload_cex :
    (expressChatRoute envOpenAIFail paramsContinuing).1
      = (500, ChatRouteJson.error ("OpenAI Error: " ++ upstreamPayload0)) ∧
    stringContains ("OpenAI Error: " ++ upstreamPayload0) upstreamPayload0 = true := by
  refine ⟨by decide, by decide⟩

/-- C3: synthesize routes on the language string: the trace of
server.ts generateTTS is non-empty, consists of Hume calls exactly when the
language is `"english"` or `"spanish"`, and of ElevenLabs credential
attempts exactly otherwise (so `"french"`, `"hindi"` and every unrecognized
string go to the direct backend). -/
theorem tts_language_routing (env : ServerEnv) (text language : String) :
    (serverGenerateTTS env text language).2 ≠ [] ∧
    (serverGenerateTTS env text language).2.all CallLog.isHume
      = ["english", "spanish"].contains language ∧
    (serverGenerateTTS env text language).2.all CallLog.isEleven
      = !(["english", "spanish"].contains language) := by
  by_cases h : ["english", "spanish"].contains language
  · rw [serverGenerateTTS_log_hume env text language h, h]
    refine ⟨by simp, by simp [CallLog.isHume], by simp [CallLog.isEleven]⟩
  · have hfalse : ["english", "spanish"].contains language = false := Bool.not_eq_true _ ▸ h
    rcases serverGenerateTTS_log_eleven env text language hfalse with h2 | h2 <;>
      rw [h2, hfalse] <;>
      exact ⟨by simp, by simp [CallLog.isHume], by simp [CallLog.isEleven]⟩

/-- C7: every transliteration request carries `temperature: 0` and
`top_p: 0`, and — the whole pipeline being a pure function of the provider
oracle — two transliterate calls on identical input build identical
requests and return identical results. -/
theorem hinglish_deterministic_sampling
    (fetchOpenAI : OpenAIRequest → OpenAIResponse) (t₁ t₂ : String) (h : t₁ = t₂) :
    convertHindiToHinglish fetchOpenAI t₁ = convertHindiToHinglish fetchOpenAI t₂ ∧
    (convertHindiToHinglish fetchOpenAI t₁).2.all
      (fun r => decide (r.temperature = some 0 ∧ r.top_p = some 0)) = true := by
  subst h
  refine ⟨rfl, ?_⟩
  unfold convertHindiToHinglish
  dsimp only
  split
  · rfl
  · split <;> simp [hinglishRequest]

/-- Witness for C7 at a concrete provider and transcript. -/
theorem hinglish_deterministic_sampling_witness :
    convertHindiToHinglish env0.fetchOpenAI "You: hello" = convertHindiToHinglish env0.fetchOpenAI "You: hello" ∧
    (convertHindiToHinglish env0.fetchOpenAI "You: hello").2.all
      (fun r => decide (r.temperature = some 0 ∧ r.top_p = some 0)) = true :=
  hinglish_deterministic_sampling env0.fetchOpenAI "You: hello" "You: hello" rfl

/-- C8: empty or whitespace-only transliteration input returns the empty
string with an empty request trace — no network call is built at all. -/
theorem hinglish_empty_input_no_network
    (fetchOpenAI : OpenAIRequest → OpenAIResponse) (t : String) (h : jsTrim t = "") :
    convertHindiToHinglish fetchOpenAI t = (Except.ok "", []) := by
  unfold convertHindiToHinglish
  rw [if_pos]
  simp [h]

/-- Witness for C8 at `""` and `"   "`. -/
theorem hinglish_empty_input_no_network_witness :
    convertHindiToHinglish env0.fetchOpenAI "" = (Except.ok "", []) ∧
    convertHindiToHinglish env0.fetchOpenAI "   " = (Except.ok "", []) :=
  ⟨hinglish_empty_input_no_network env0.fetchOpenAI "" (by decide),
   hinglish_empty_input_no_network env0.fetchOpenAI "   " (by decide)⟩

/-- C9: a language whose lowercase form is none of english / spanish /
french / hindi makes both buildSystemPrompt and firstMessageTemplate
produce the English variant (silent default), and both functions depend on
the language string only through its lowercase form, so resolution is
case-insensitive. -/
theorem prompt_language_fallback_case_insensitive
    (language l₁ l₂ : String) (assessments : List AssessmentAnswer) (feeling : String)
    (h1 : jsToLowerCase language ≠ "english") (h2 : jsToLowerCase language ≠ "spanish")
    (h3 : jsToLowerCase language ≠ "french") (h4 : jsToLowerCase language ≠ "hindi")
    (hcase : jsToLowerCase l₁ = jsToLowerCase l₂) :
    (logicBuildSystemPrompt language assessments = logicBuildSystemPrompt "english" assessments ∧
     firstMessageTemplate language feeling = firstMessageTemplate "english" feeling) ∧
    (logicBuildSystemPrompt l₁ assessments = logicBuildSystemPrompt l₂ assessments ∧
     firstMessageTemplate l₁ feeling = firstMessageTemplate l₂ feeling) := by
  have hlookup : logicPromptsLookup (jsToLowerCase language) = none := by
    unfold logicPromptsLookup
    rw [if_neg h1, if_neg h2, if_neg h3, if_neg h4]
  have htempl : logicFirstTemplates (jsToLowerCase language) feeling = none := by
    unfold logicFirstTemplates
    rw [if_neg h1, if_neg h2, if_neg h3, if_neg h4]
  have heng : jsToLowerCase "english" = "english" := by decide
  refine ⟨⟨?_, ?_⟩, ?_, ?_⟩
  · unfold logicBuildSystemPrompt
    dsimp only
    rw [hlookup, heng]
    rfl
  · unfold firstMessageTemplate
    rw [htempl, heng]
    rfl
  · unfold logicBuildSystemPrompt
    dsimp only
    rw [hcase]
  · unfold firstMessageTemplate
    rw [hcase]

/-- Witness for C9: the unrecognized language `"Klingon"` falls back to
English, and `"EngLISH"` resolves case-insensitively to the same output as
`"english"`. -/
theorem prompt_language_fallback_case_insensitive_witness :
    (logicBuildSystemPrompt "Klingon" [] = logicBuildSystemPrompt "english" [] ∧
     firstMessageTemplate "Klingon" "anxious" = firstMessageTemplate "english" "anxious") ∧
    (logicBuildSystemPrompt "EngLISH" [] = logicBuildSystemPrompt "english" [] ∧
     firstMessageTemplate "EngLISH" "anxious" = firstMessageTemplate "english" "anxious") :=
  prompt_language_fallback_case_insensitive "Klingon" "EngLISH" "english" [] "anxious"
    (by decide) (by decide) (by decide) (by decide) (by decide)

/-- C5 amended: it is the serverless /api/chat handler that validates —
for any environment, a POST whose body is missing the `FirstMessage` field
(or has no body at all) is answered `400 { error: 'Invalid payload' }` with
an empty call trace, i.e. before any network call; the express route (see
the counterexample) performs no such validation. -/
theorem chat_missing_firstmessage_serverless_amended
    (env : ServerEnv) (body : Option ChatBody)
    (h : firstMessageMissing body = true) :
    vercelChatHandler env "POST" body = ((400, ChatRouteJson.error "Invalid payload"), []) := by
  match body with
  | none => rfl
  | some p =>
    have hp : p.FirstMessage = none := by
      simpa [firstMessageMissing, Option.isNone_iff_eq_none] using h
    unfold vercelChatHandler
    rw [if_neg (by decide)]
    dsimp only
    rw [hp]

/-- Witness for C5 at a concrete body missing `FirstMessage`. -/
theorem chat_missing_firstmessage_serverless_amended_witness :
    vercelChatHandler env0 "POST" (some paramsNoFM)
      = ((400, ChatRouteJson.error "Invalid payload"), []) :=
  chat_missing_firstmessage_serverless_amended env0 (some paramsNoFM) (by decide)

/-- C6 amended: when the chat-completion provider fails with raw body `b`,
the express /api/chat handler's client-visible error is
`"OpenAI Error: " ++ b` — `err.message` with the full upstream payload
embedded; the short generic `'Internal Server Error'` is substituted only
for an empty thrown message. -/
theorem error_message_embeds_upstream_payload_amended
    (env : ServerEnv) (params : ChatBody) (lang b : String)
    (hfetch : ∀ r, env.fetchOpenAI r = { ok := false, bodyText := b, content := none })
    (hfm : jsTruthyBool params.FirstMessage = false)
    (hlang : params.language = some lang) :
    (expressChatRoute env params).1 = (500, ChatRouteJson.error ("OpenAI Error: " ++ b)) ∧
    stringContains ("OpenAI Error: " ++ b) b = true := by
  have hc : ∀ s u hist, serverCallOpenAIChat env s u hist
      = (Except.error ("OpenAI Error: " ++ b),
         [CallLog.openai { model := "gpt-4o-mini", messages := serverCallOpenAIChatMessages s u hist }]) := by
    intro s u hist
    unfold serverCallOpenAIChat
    dsimp only
    rw [hfetch]
    rfl
  refine ⟨?_, stringContains_append_left "OpenAI Error: " b⟩
  unfold expressChatRoute
  rw [hfm]
  dsimp only
  rw [hlang]
  dsimp only
  rw [hc]
  dsimp only
  rw [jsOrString, if_neg (openai_error_prefix_ne_empty b)]
  simp

/-- Witness for C6 at a concrete failing environment and continuing body. -/
theorem error_message_embeds_upstream_payload_amended_witness :
    (expressChatRoute envOpenAIFail paramsContinuing).1
      = (500, ChatRouteJson.error ("OpenAI Error: " ++ upstreamPayload0)) ∧
    stringContains ("OpenAI Error: " ++ upstreamPayload0) upstreamPayload0 = true :=
  error_message_embeds_upstream_payload_amended envOpenAIFail paramsContinuing
    "english" upstreamPayload0 (fun _ => rfl) rfl rfl

/-- On the continuing branch the express route issues exactly one
chat-completion request: system prompt, the supplied history unchanged, and
the user prompt — whatever the providers answer. -/
theorem expressChatRoute_openaiRequests (env : ServerEnv) (params : ChatBody) (lang : String)
    (hfm : jsTruthyBool params.FirstMessage = false)
    (hlang : params.language = some lang) :
    openaiRequests (expressChatRoute env params).2
      = [{ model := "gpt-4o-mini",
           messages := serverCallOpenAIChatMessages
             (serverBuildSystemPrompt lang (params.assessment_question_answers.getD []))
             (jsOrOptString params.Transcript "Please continue our conversation.")
             params.ConversationHistory }] := by
  have hlog := serverCallOpenAIChat_log env
    (serverBuildSystemPrompt lang (params.assessment_question_answers.getD []))
    (jsOrOptString params.Transcript "Please continue our conversation.")
    params.ConversationHistory
  unfold expressChatRoute
  rw [hfm, hlang]
  dsimp only
  simp only [Bool.false_eq_true, if_false]
  rcases hcall : serverCallOpenAIChat env
      (serverBuildSystemPrompt lang (params.assessment_question_answers.getD []))
      (jsOrOptString params.Transcript "Please continue our conversation.")
      params.ConversationHistory with ⟨res, log1⟩
  rw [hcall] at hlog
  dsimp only at hlog
  cases res with
  | error msg =>
    dsimp only
    rw [hlog]
    rfl
  | ok aiText =>
    dsimp only
    rcases htts : serverGenerateTTS env aiText (jsToLowerCase lang) with ⟨res2, log2⟩
    have hlog2 : openaiRequests log2 = [] := by
      have h0 := openaiRequests_serverGenerateTTS env aiText (jsToLowerCase lang)
      rw [htts] at h0
      exact h0
    unfold openaiRequests at hlog2 ⊢
    cases res2 <;> dsimp only <;> rw [hlog] <;>
      simp [List.filterMap_append, hlog2]

/-- An 11-turn prior conversation; with the new user turn appended the
client-side history reaches length 12. -/
def hist11 : List ChatMessage := List.replicate 11 histMsg

/-- C1 amended: the last-5 truncation is performed by the browser client,
not by the server — sendMessage puts `updatedHistory.slice(-5)` into the
request, and the express route forwards that supplied history unchanged, so
whenever the client-side history (12 turns in the witness) has at least 5
turns, the request carries exactly 5 turns and the one chat-completion call
carries exactly 7 messages (1 system + 5 history + 1 user prompt). -/
theorem chat_history_window_client_amended
    (env : ServerEnv) (conversationHistory : List ChatMessage)
    (assessmentAnswers : List AssessmentAnswer) (currentLanguage messageText : String)
    (audioData : Option String) (timestamp : String) (messageId : Option String)
    (detectedLang : Option String)
    (hlen : 5 ≤ conversationHistory.length + 1) :
    ((sendMessageRequest conversationHistory assessmentAnswers currentLanguage messageText
        audioData timestamp messageId detectedLang).ConversationHistory.getD []).length = 5 ∧
    (openaiRequests (expressChatRoute env (sendMessageRequest conversationHistory
        assessmentAnswers currentLanguage messageText audioData timestamp messageId
        detectedLang)).2).map (fun r => r.messages.length) = [7] := by
  have hch : (sendMessageRequest conversationHistory assessmentAnswers currentLanguage
      messageText audioData timestamp messageId detectedLang).ConversationHistory
      = some (jsSliceLast (conversationHistory
          ++ [clientUserMessage messageText audioData timestamp messageId detectedLang]) 5) := rfl
  have hlen5 : (jsSliceLast (conversationHistory
      ++ [clientUserMessage messageText audioData timestamp messageId detectedLang]) 5).length = 5 := by
    have happ : (conversationHistory
        ++ [clientUserMessage messageText audioData timestamp messageId detectedLang]).length
        = conversationHistory.length + 1 := by simp
    unfold jsSliceLast
    rw [List.length_drop, happ]
    omega
  constructor
  · rw [hch]
    simpa using hlen5
  · rw [expressChatRoute_openaiRequests env (sendMessageRequest conversationHistory
        assessmentAnswers currentLanguage messageText audioData timestamp messageId
        detectedLang) currentLanguage rfl rfl]
    rw [List.map_singleton]
    unfold serverCallOpenAIChatMessages
    rw [hch]
    dsimp only
    simp [hlen5]

/-- Witness for C1: an 11-turn prior history plus the new user turn makes a
12-turn client history; the request carries exactly its last 5 turns and
the chat-completion call has 7 messages. -/
theorem chat_history_window_client_amended_witness :
    ((sendMessageRequest hist11 [] "english" "hello" none "t1" none none).ConversationHistory.getD
        []).length = 5 ∧
    (openaiRequests (expressChatRoute env0
        (sendMessageRequest hist11 [] "english" "hello" none "t1" none none)).2).map
      (fun r => r.messages.length) = [7] :=
  chat_history_window_client_amended env0 hist11 [] "english" "hello" none "t1" none none
    (by decide)

/-- If a `ttsInvoke` marker sits in front of a generateTTS trace, any
`ttsInvoke` member of the whole list is that front marker, so its language
tag is the front one. -/
theorem mem_ttsInvoke_cons (env : ServerEnv) (t l text lang srcText srcLang : String)
    (hmem : CallLog.ttsInvoke t l
      ∈ CallLog.ttsInvoke text lang :: (serverGenerateTTS env srcText srcLang).2) :
    l = lang := by
  rcases List.mem_cons.mp hmem with heq | hmem2
  · injection heq with h1 h2
  · exact absurd hmem2 (ttsInvoke_not_mem_serverGenerateTTS env t l srcText srcLang)

/-- C10: generateTTS itself compares the language case-sensitively against
`['english', 'spanish']` — `"English"` and `"SPANISH"` route to the direct
ElevenLabs backend — while the express /api/chat route lowercases
`params.language` before every generateTTS invocation, so case-insensitive
routing holds only at the HTTP boundary. -/
theorem tts_routing_case_sensitivity :
    (∀ env text,
        (serverGenerateTTS env text "English").2.all CallLog.isEleven = true ∧
        (serverGenerateTTS env text "SPANISH").2.all CallLog.isEleven = true) ∧
    (∀ env params lang t l, params.language = some lang →
        CallLog.ttsInvoke t l ∈ (expressChatRoute env params).2 → l = jsToLowerCase lang) := by
  constructor
  · intro env text
    constructor
    · rcases serverGenerateTTS_log_eleven env text "English" (by decide) with h | h <;>
        rw [h] <;> simp [CallLog.isEleven]
    · rcases serverGenerateTTS_log_eleven env text "SPANISH" (by decide) with h | h <;>
        rw [h] <;> simp [CallLog.isEleven]
  · intro env params lang t l hlang hmem
    unfold expressChatRoute at hmem
    by_cases hfm : jsTruthyBool params.FirstMessage
    · rw [if_pos hfm, hlang] at hmem
      dsimp only at hmem
      rcases htts : serverGenerateTTS env
          (serverFirstMessageText (jsToLowerCase lang) (feelingOf params.assessment_question_answers))
          (jsToLowerCase lang) with ⟨res2, log2⟩
      have hl2 : log2 = (serverGenerateTTS env
          (serverFirstMessageText (jsToLowerCase lang) (feelingOf params.assessment_question_answers))
          (jsToLowerCase lang)).2 := by rw [htts]
      rw [htts] at hmem
      cases res2 <;> dsimp only at hmem <;> rw [hl2] at hmem <;>
        exact mem_ttsInvoke_cons env t l _ _ _ _ hmem
    · rw [if_neg hfm, hlang] at hmem
      dsimp only at hmem
      have hlog := serverCallOpenAIChat_log env
        (serverBuildSystemPrompt lang (params.assessment_question_answers.getD []))
        (jsOrOptString params.Transcript "Please continue our conversation.")
        params.ConversationHistory
      rcases hcall : serverCallOpenAIChat env
          (serverBuildSystemPrompt lang (params.assessment_question_answers.getD []))
          (jsOrOptString params.Transcript "Please continue our conversation.")
          params.ConversationHistory with ⟨res, log1⟩
      rw [hcall] at hmem hlog
      dsimp only at hlog
      cases res with
      | error msg =>
        dsimp only at hmem
        rw [hlog] at hmem
        simp at hmem
      | ok aiText =>
        dsimp only at hmem
        rcases htts : serverGenerateTTS env aiText (jsToLowerCase lang) with ⟨res2, log2⟩
        have hl2 : log2 = (serverGenerateTTS env aiText (jsToLowerCase lang)).2 := by rw [htts]
        rw [htts] at hmem
        cases res2 <;> dsimp only at hmem <;> rw [hlog] at hmem <;>
          rcases List.mem_append.mp hmem with hmem1 | hmem2 <;>
          first
            | exact absurd hmem1 (by simp)
            | (rw [hl2] at hmem2
               exact mem_ttsInvoke_cons env t l _ _ _ _ hmem2)

/-- The greeting the express route synthesizes for a first message with the
default `neutral` feeling. -/
def greetingNeutral : String :=
  "Hi, I am Jennifer your AI Therapist. I see you're feeling neutral. Can you tell me more about that?"

/-- A first-message body carrying the mixed-case language tag `"English"`. -/
def paramsFirstEnglish : ChatBody :=
  { FirstMessage := some true, assessment_question_answers := some [],
    language := some "English" }

/-- Witness for C10: mixed-case `"English"`/`"SPANISH"` route to ElevenLabs
inside generateTTS, and the express route's one TTS invocation for the body
with language `"English"` carries the lowercased tag. -/
theorem tts_routing_case_sensitivity_witness :
    ((serverGenerateTTS env0 "hi" "English").2.all CallLog.isEleven = true ∧
     (serverGenerateTTS env0 "hi" "SPANISH").2.all CallLog.isEleven = true) ∧
    "english" = jsToLowerCase "English" :=
  ⟨tts_routing_case_sensitivity.1 env0 "hi",
   tts_routing_case_sensitivity.2 env0 paramsFirstEnglish "English" greetingNeutral "english"
     rfl (by decide)⟩
